import Mathlib

/-!
Shallow embedding of the report lifecycle of the campus-safety backend
(reports controller, moderation controller, Report schema methods, campus
settings, env config, rate limiter) together with proofs about the
behaviour of those operations.
-/

namespace CampusSafety

abbrev UserId := Nat
abbrev CampusId := Nat

/-- Report categories (`Report.js` schema enum). -/
inductive Category
  | safety | emergency | theft | suspicious | suspicious_activity
  | harassment | vandalism | medical | fire | hazard | assault | other
deriving DecidableEq, Repr

/-- Report lifecycle status (`Report.js` schema enum). -/
inductive Status
  | reported | verified | investigating | resolved | invalid | spam
deriving DecidableEq, Repr

/-- One entry of `editHistory` (`Report.js`: `{ editedAt, changes }`, where the
`changes` object built in `updateReport` holds title/description/category/severity). -/
structure EditEntry where
  editedAt : Nat
  title : String
  description : String
  category : Category
  severity : Nat
deriving DecidableEq, Repr

/-- The report document (`Report.js` schema).  Times are epoch milliseconds.
The GeoJSON coordinates only feed the 2dsphere index, so they are kept as an
opaque pair of integers. -/
structure Report where
  reporterId : UserId
  campusId : CampusId
  category : Category
  severity : Nat
  title : String
  description : String
  locationLon : Int
  locationLat : Int
  mediaUrls : List String
  isAnonymous : Bool
  status : Status
  resolvedBy : Option UserId
  resolvedAt : Option Nat
  moderatorNotes : Option String
  assignedTo : Option UserId
  confirms : List UserId
  disputes : List UserId
  commentsCount : Nat
  viewsCount : Nat
  spamReports : List UserId
  isSpam : Bool
  isEdited : Bool
  editedAt : Option Nat
  editHistory : List EditEntry
  createdAt : Nat
deriving DecidableEq, Repr

/-! ## Spam flagging (`reportSpam` in the reports controller) -/

/-- `reportSpam` body: idempotently add the actor to `spamReports`, then, if
the set has reached 5 members and the report is not yet flagged, set
`isSpam = true` and `status = spam`. -/
def flagSpam (actor : UserId) (r : Report) : Report :=
  let r1 := if actor ∈ r.spamReports then r
            else { r with spamReports := r.spamReports ++ [actor] }
  if 5 ≤ r1.spamReports.length ∧ ¬ r1.isSpam then
    { r1 with isSpam := true, status := Status.spam }
  else r1

/-- A sequence of `reportSpam` calls applied in order. -/
def applyFlags (actors : List UserId) (r : Report) : Report :=
  actors.foldl (fun s a => flagSpam a s) r

/-! ## Voting (`addVote` instance method of `Report.js`) -/

inductive VoteType
  | confirm | dispute
deriving DecidableEq, Repr

/-- `addVote`: remove the actor from the opposite set, then add to the
requested set if absent. -/
def addVote (actor : UserId) (vt : VoteType) (r : Report) : Report :=
  match vt with
  | VoteType.confirm =>
      let disputes := r.disputes.filter (fun u => u ≠ actor)
      let confirms :=
        if actor ∈ r.confirms then r.confirms else r.confirms ++ [actor]
      { r with confirms := confirms, disputes := disputes }
  | VoteType.dispute =>
      let confirms := r.confirms.filter (fun u => u ≠ actor)
      let disputes :=
        if actor ∈ r.disputes then r.disputes else r.disputes ++ [actor]
      { r with confirms := confirms, disputes := disputes }

/-- A sequence of `Vote` calls applied in order. -/
def applyVotes (votes : List (UserId × VoteType)) (r : Report) : Report :=
  votes.foldl (fun s v => addVote v.1 v.2 s) r

/-! ## Audit log entries (`AuditLog.logAction`) -/

inductive AuditAction
  | create_report | edit_report | delete_report | vote_report | report_spam
  | verify_report | invalidate_report | resolve_report | ban_user
deriving DecidableEq, Repr

/-- The before/after snapshot written by `updateReport` (title, description,
category, severity). -/
structure ContentSnapshot where
  title : String
  description : String
  category : Category
  severity : Nat
deriving DecidableEq, Repr

inductive AuditChanges
  | noChanges
  | statusChange (before after : Status)
  | contentChange (before after : ContentSnapshot)
deriving DecidableEq, Repr

structure AuditEntry where
  actorId : UserId
  action : AuditAction
  changes : AuditChanges
deriving DecidableEq, Repr

/-! ## Notifications (`Notification.createNotification`) -/

inductive NotifType
  | comment_reply | moderator_action
deriving DecidableEq, Repr

inductive Priority
  | low | medium | high
deriving DecidableEq, Repr

structure NotificationRec where
  userId : UserId
  type : NotifType
  priority : Priority
deriving DecidableEq, Repr

/-! ## Time-limited editing (`canEdit` method and `updateReport` handler) -/

inductive ErrKind
  | notFound | forbidden
deriving DecidableEq, Repr

/-- `canEdit(userId, timeLimit = 30*60*1000)`: editable while status is
`reported`, by the reporter, strictly within the time limit. -/
def canEdit (r : Report) (userId : UserId) (now : Nat)
    (timeLimit : Nat) : Bool :=
  if r.status ≠ Status.reported then false
  else if r.reporterId ≠ userId then false
  else decide (now - r.createdAt < timeLimit)

/-- Optional fields of the PATCH body (`updateReportSchema`: title,
description, category, severity, mediaUrls, each optional). -/
structure UpdateFields where
  title : Option String
  description : Option String
  category : Option Category
  severity : Option Nat
  mediaUrls : Option (List String)
deriving DecidableEq, Repr

/-- `updateReport` handler: 403 unless `canEdit`; otherwise apply the provided
fields, set the edited flag and timestamp, push the history entry (built from
the already-updated document: `title || report.title` after mutation), and log
an `edit_report` audit entry with the pre-edit values as `before`. -/
def updateReport (editor : UserId) (now : Nat) (f : UpdateFields) (r : Report) :
    Except ErrKind (Report × AuditEntry) :=
  if ¬ canEdit r editor now (30 * 60 * 1000) then Except.error ErrKind.forbidden
  else
    let oldValues : ContentSnapshot :=
      { title := r.title, description := r.description,
        category := r.category, severity := r.severity }
    let r1 := { r with
      title := f.title.getD r.title,
      description := f.description.getD r.description,
      category := f.category.getD r.category,
      severity := f.severity.getD r.severity,
      mediaUrls := f.mediaUrls.getD r.mediaUrls }
    let entry : EditEntry :=
      { editedAt := now,
        title := f.title.getD r1.title,
        description := f.description.getD r1.description,
        category := f.category.getD r1.category,
        severity := f.severity.getD r1.severity }
    let r2 := { r1 with
                isEdited := true, editedAt := some now,
                editHistory := r.editHistory ++ [entry] }
    Except.ok (r2,
      { actorId := editor, action := AuditAction.edit_report,
        changes := AuditChanges.contentChange oldValues
          { title := r2.title, description := r2.description,
            category := r2.category, severity := r2.severity } })

/-- The report stored after a PATCH: `save` only runs on the success path, so
a failed edit leaves the stored document untouched. -/
def updateReportPersisted (editor : UserId) (now : Nat) (f : UpdateFields)
    (r : Report) : Report :=
  match updateReport editor now f r with
  | Except.ok (r', _) => r'
  | Except.error _ => r

/-! ## Campus settings and env config -/

/-- `Campus.js` `settings` subdocument with its schema defaults. -/
structure CampusSettings where
  notificationRadius : Nat
  minSeverityForPush : Nat
  reportsPerHour : Nat
  requireModeration : Bool
  allowAnonymous : Bool
deriving DecidableEq, Repr

def defaultCampusSettings : CampusSettings :=
  { notificationRadius := 500, minSeverityForPush := 4, reportsPerHour := 5,
    requireModeration := false, allowAnonymous := true }

structure Campus where
  id : CampusId
  settings : CampusSettings
deriving DecidableEq, Repr

/-- The parts of `config/env.js` the report slice reads. -/
structure EnvConfig where
  rateLimitReportsPerHour : Nat
  minSeverityForPush : Nat
  isDevelopment : Bool
deriving DecidableEq, Repr

/-- Env defaults: `RATE_LIMIT_REPORTS_PER_HOUR || "5"`,
`MINIMUM_SEVERITY_FOR_PUSH || "4"`, production mode. -/
def defaultEnv : EnvConfig :=
  { rateLimitReportsPerHour := 5, minSeverityForPush := 4,
    isDevelopment := false }

/-! ## Report creation (`createReport` handler) -/

structure CreateInput where
  category : Category
  severity : Nat
  title : String
  description : String
  locationLon : Int
  locationLat : Int
  mediaUrls : List String
  isAnonymous : Bool
deriving DecidableEq, Repr

structure CreateResult where
  report : Report
  audit : AuditEntry
  pushSignal : Bool
deriving DecidableEq, Repr

/-- `createReport`: persist a fresh `reported` document, log `create_report`,
and signal the notification fan-out exactly when
`severity >= env.notifications.minSeverityForPush`. -/
def createReport (env : EnvConfig) (reporter : UserId) (campusId : CampusId)
    (now : Nat) (input : CreateInput) : CreateResult :=
  let report : Report :=
    { reporterId := reporter, campusId := campusId,
      category := input.category, severity := input.severity,
      title := input.title, description := input.description,
      locationLon := input.locationLon, locationLat := input.locationLat,
      mediaUrls := input.mediaUrls, isAnonymous := input.isAnonymous,
      status := Status.reported, resolvedBy := none, resolvedAt := none,
      moderatorNotes := none, assignedTo := none,
      confirms := [], disputes := [], commentsCount := 0, viewsCount := 0,
      spamReports := [], isSpam := false, isEdited := false, editedAt := none,
      editHistory := [], createdAt := now }
  { report := report,
    audit := { actorId := reporter, action := AuditAction.create_report,
               changes := AuditChanges.noChanges },
    pushSignal := decide (env.minSeverityForPush ≤ input.severity) }

/-- Claim-side signal condition, written from the spec's words for comparison
only: signal exactly when severity ≥ the creating campus's configured
`settings.minSeverityForPush`. -/
def specCampusPushSignal (campus : Campus) (severity : Nat) : Bool :=
  decide (campus.settings.minSeverityForPush ≤ severity)

/-! ## Moderator status updates (`updateReportStatus` in the moderation
controller) -/

inductive Role
  | student | moderator | admin | security | superAdmin
deriving DecidableEq, Repr

structure Actor where
  userId : UserId
  campusId : CampusId
  role : Role
deriving DecidableEq, Repr

/-- PATCH body of `/moderation/reports/:id`: optional status, notes,
assignee. -/
structure ModUpdateInput where
  status : Option Status
  moderatorNotes : Option String
  assignedTo : Option UserId
deriving DecidableEq, Repr

structure ModUpdateResult where
  report : Report
  audit : AuditEntry
  notification : Option NotificationRec
deriving DecidableEq, Repr

/-- The `if (status)` block of `updateReportStatus`: apply the status and
stamp `resolvedBy`/`resolvedAt` when the new status is `resolved`. -/
def applyStatusChange (actorId : UserId) (now : Nat) (st : Option Status)
    (r : Report) : Report :=
  match st with
  | none => r
  | some s =>
      if s = Status.resolved then
        { r with
          status := s, resolvedBy := some actorId, resolvedAt := some now }
      else { r with status := s }

/-- The `if (moderatorNotes)` block of `updateReportStatus`. -/
def applyModNotes (notes : Option String) (r : Report) : Report :=
  match notes with
  | none => r
  | some n => { r with moderatorNotes := some n }

/-- The `if (assignedTo)` block of `updateReportStatus`: accepted only when
the target user holds the `security` role, silently ignored otherwise. -/
def applyAssign (security : UserId → Bool) (asg : Option UserId)
    (r : Report) : Report :=
  match asg with
  | none => r
  | some uid => if security uid then { r with assignedTo := some uid } else r

/-- `updateReportStatus`: campus-scope check (super-admin bypass); apply the
provided status, stamping `resolvedBy`/`resolvedAt` when the new status is
`resolved`; apply notes; apply assignee only when the target holds the
`security` role; log an audit entry whose action is chosen from the requested
status value; notify the reporter when the status changed and the reporter is
not the actor.  `security u` tells whether user `u` has the security role. -/
def updateReportStatus (actor : Actor) (now : Nat) (security : UserId → Bool)
    (input : ModUpdateInput) (r : Report) : Except ErrKind ModUpdateResult :=
  if r.campusId ≠ actor.campusId ∧ actor.role ≠ Role.superAdmin then
    Except.error ErrKind.forbidden
  else
    let oldStatus := r.status
    let r3 :=
      applyAssign security input.assignedTo
        (applyModNotes input.moderatorNotes
          (applyStatusChange actor.userId now input.status r))
    let action :=
      match input.status with
      | some Status.verified => AuditAction.verify_report
      | some Status.invalid => AuditAction.invalidate_report
      | _ => AuditAction.resolve_report
    let audit : AuditEntry :=
      { actorId := actor.userId, action := action,
        changes := AuditChanges.statusChange oldStatus r3.status }
    let notification :=
      if oldStatus ≠ r3.status ∧ r.reporterId ≠ actor.userId then
        some { userId := r.reporterId, type := NotifType.moderator_action,
               priority :=
                 if input.status = some Status.resolved then Priority.medium
                 else Priority.low }
      else none
    Except.ok { report := r3, audit := audit, notification := notification }

/-! ## Retraction and comments (for the operation sequences of the
lifecycle) -/

/-- `deleteReport`: owner or admin soft-deletes by setting status to
`invalid`; otherwise 403 leaves the document untouched. -/
def retractReport (actorId : UserId) (isAdmin : Bool) (r : Report) : Report :=
  if r.reporterId = actorId ∨ isAdmin then { r with status := Status.invalid }
  else r

/-- Effect of `addComment` on the report document: the denormalized counter is
incremented. -/
def addCommentToReport (r : Report) : Report :=
  { r with commentsCount := r.commentsCount + 1 }

/-- One mutating operation against a single report document. -/
inductive Op
  | edit (editor : UserId) (now : Nat) (f : UpdateFields)
  | retract (actorId : UserId) (isAdmin : Bool)
  | vote (actor : UserId) (vt : VoteType)
  | comment
  | flag (actor : UserId)
  | modUpdate (actor : Actor) (now : Nat) (input : ModUpdateInput)

/-- The stored document after one operation (failed operations leave it
unchanged, since `save` only runs on success paths). -/
def stepOp (security : UserId → Bool) (op : Op) (r : Report) : Report :=
  match op with
  | Op.edit e now f => updateReportPersisted e now f r
  | Op.retract a adm => retractReport a adm r
  | Op.vote a vt => addVote a vt r
  | Op.comment => addCommentToReport r
  | Op.flag a => flagSpam a r
  | Op.modUpdate actor now input =>
      match updateReportStatus actor now security input r with
      | Except.ok res => res.report
      | Except.error _ => r

def runOps (security : UserId → Bool) (ops : List Op) (r : Report) : Report :=
  ops.foldl (fun s op => stepOp security op s) r

/-! ## Geospatial query (`findNearby` static of `Report.js`) -/

structure NearbyFilters where
  category : Option Category
  severity : Option Nat
  status : Option Status
  since : Option Nat
deriving DecidableEq, Repr

/-- The status whitelist used when no status filter is supplied. -/
def defaultStatuses : List Status :=
  [Status.reported, Status.verified, Status.investigating, Status.resolved]

/-- One report matches the Mongo query built by `findNearby`.
`withinDistance lon lat radius r` stands for the `$near`/`$maxDistance`
condition answered by the 2dsphere index. -/
def matchesNearbyQuery (campusId : CampusId) (longitude latitude : Int)
    (radiusMeters : Nat) (withinDistance : Int → Int → Nat → Report → Bool)
    (f : NearbyFilters) (r : Report) : Bool :=
  decide (r.campusId = campusId)
  && withinDistance longitude latitude radiusMeters r
  && (match f.category with
      | none => true
      | some c => decide (r.category = c))
  && (match f.severity with
      | none => true
      | some s => decide (s ≤ r.severity))
  && (match f.status with
      | none => decide (r.status ∈ defaultStatuses)
      | some st => decide (r.status = st))
  && (match f.since with
      | none => true
      | some t => decide (t ≤ r.createdAt))

/-- `findNearby`: filter the collection by the query, newest first. -/
def findNearby (db : List Report) (campusId : CampusId)
    (longitude latitude : Int) (radiusMeters : Nat)
    (withinDistance : Int → Int → Nat → Report → Bool)
    (f : NearbyFilters) : List Report :=
  (db.filter
      (matchesNearbyQuery campusId longitude latitude radiusMeters
        withinDistance f)).mergeSort
    (fun a b => decide (b.createdAt ≤ a.createdAt))

/-! ## Report-creation route: verified email + rate limiter
(`router.post("/")` with `requireVerifiedEmail` and `reportLimiter`) -/

/-- One POST /reports request as the middleware chain sees it. -/
structure CreateAttempt where
  userId : UserId
  ip : Nat
  time : Nat
  emailVerified : Bool
deriving DecidableEq, Repr

inductive CreateOutcome
  | emailNotVerified
  | rateLimited
  | created
deriving DecidableEq, Repr

/-- `reportLimiter` windowMs: one hour (hard-coded in the limiter). -/
def limiterWindowMs : Nat := 60 * 60 * 1000

/-- `reportLimiter` max: 100 in development, else
`parseInt(env.rateLimit.reportsPerHour) || 5`. -/
def reportLimiterMax (env : EnvConfig) : Nat :=
  if env.isDevelopment then 100
  else if env.rateLimitReportsPerHour = 0 then 5
  else env.rateLimitReportsPerHour

/-- In-memory fixed-window counter of express-rate-limit, keyed by client
IP (the default key generator). -/
structure LimiterBucket where
  ip : Nat
  count : Nat
  resetTime : Nat
deriving DecidableEq, Repr

/-- One hit on the limiter: start or reset the key's window if needed,
increment its counter, allow iff the counter stays within `max`. -/
def limiterHit (max : Nat) (buckets : List LimiterBucket) (ip : Nat)
    (now : Nat) : Bool × List LimiterBucket :=
  match buckets.find? (fun b => decide (b.ip = ip)) with
  | none =>
      (decide (1 ≤ max),
       { ip := ip, count := 1, resetTime := now + limiterWindowMs } ::
         buckets)
  | some b =>
      if b.resetTime ≤ now then
        (decide (1 ≤ max),
         buckets.map (fun b' =>
           if b'.ip = ip then
             { ip := ip, count := 1, resetTime := now + limiterWindowMs }
           else b'))
      else
        (decide (b.count + 1 ≤ max),
         buckets.map (fun b' =>
           if b'.ip = ip then { b' with count := b.count + 1 } else b'))

/-- Run the middleware chain of POST /reports over a sequence of requests:
`requireVerifiedEmail` rejects unverified users with 403 before the limiter;
then `reportLimiter` rejects with 429 once the IP's counter exceeds the max;
otherwise the report is created. -/
def processCreateAttempts (env : EnvConfig) (attempts : List CreateAttempt) :
    List CreateOutcome :=
  (attempts.foldl
    (fun acc a =>
      if ¬ a.emailVerified then
        (acc.1 ++ [CreateOutcome.emailNotVerified], acc.2)
      else
        let hit := limiterHit (reportLimiterMax env) acc.2 a.ip a.time
        if hit.1 then (acc.1 ++ [CreateOutcome.created], hit.2)
        else (acc.1 ++ [CreateOutcome.rateLimited], hit.2))
    (([] : List CreateOutcome), ([] : List LimiterBucket))).1

/-- Claim-side admission rule, written from the spec's words for comparison
only: an attempt is admitted iff the same user made fewer than `limit`
attempts within the past hour. -/
def specUserRateAllows (limit : Nat) (prior : List CreateAttempt)
    (a : CreateAttempt) : Bool :=
  decide ((prior.filter (fun p =>
    p.userId = a.userId ∧ a.time < p.time + limiterWindowMs)).length < limit)

/-! ## Shared concrete documents for witnesses and counterexamples -/

/-- A freshly created report (the state `createReport` persists). -/
def rEx : Report :=
  { reporterId := 1, campusId := 1, category := Category.safety, severity := 3,
    title := "Suspicious person near library",
    description := "Someone acting strangely",
    locationLon := -122, locationLat := 37, mediaUrls := [],
    isAnonymous := false, status := Status.reported, resolvedBy := none,
    resolvedAt := none, moderatorNotes := none, assignedTo := none,
    confirms := [], disputes := [], commentsCount := 0, viewsCount := 0,
    spamReports := [], isSpam := false, isEdited := false, editedAt := none,
    editHistory := [], createdAt := 0 }

/-- A moderator of campus 1 who is not the reporter of `rEx`. -/
def modEx : Actor := { userId := 99, campusId := 1, role := Role.moderator }

/-- An empty PATCH body. -/
def fEmpty : UpdateFields := ⟨none, none, none, none, none⟩

/-! # Theorems -/

/-! ## C1: spam threshold -/

/-- Invariant tying `isSpam` and `status` to the size of the spam-reporter
set along `reportSpam` calls, starting from base status `base`. -/
def SpamInv (base : Status) (s : Report) : Prop :=
  s.spamReports.Nodup
  ∧ s.isSpam = decide (5 ≤ s.spamReports.length)
  ∧ s.status = (if 5 ≤ s.spamReports.length then Status.spam else base)

lemma flagSpam_of_mem {a : UserId} {s : Report} {base : Status}
    (hinv : SpamInv base s) (hmem : a ∈ s.spamReports) :
    flagSpam a s = s := by
  obtain ⟨-, hspam, -⟩ := hinv
  unfold flagSpam
  simp only [hmem, if_true]
  by_cases h5 : 5 ≤ s.spamReports.length
  · simp [hspam, h5]
  · simp [h5]

lemma flagSpam_inv (base : Status) (a : UserId) (s : Report)
    (h : SpamInv base s) :
    SpamInv base (flagSpam a s)
    ∧ ∀ x, x ∈ (flagSpam a s).spamReports ↔ (x = a ∨ x ∈ s.spamReports) := by
  obtain ⟨hnd, hspam, hstat⟩ := h
  by_cases hmem : a ∈ s.spamReports
  · rw [flagSpam_of_mem ⟨hnd, hspam, hstat⟩ hmem]
    exact ⟨⟨hnd, hspam, hstat⟩, fun x => by
      constructor
      · exact fun hx => Or.inr hx
      · rintro (rfl | hx)
        · exact hmem
        · exact hx⟩
  · unfold flagSpam
    simp only [hmem, if_false]
    by_cases h5 : 5 ≤ s.spamReports.length + 1
    · by_cases hold : 5 ≤ s.spamReports.length
      · have htrue : s.isSpam = true := by simp [hspam, hold]
        constructor
        · refine ⟨?_, ?_, ?_⟩ <;>
            simp [htrue, List.nodup_append, hnd, hmem, hspam, hstat, hold, h5,
              List.length_append]
        · intro x
          simp [htrue, List.mem_append, or_comm]
      · have hfalse : s.isSpam = false := by simp [hspam, hold]
        constructor
        · refine ⟨?_, ?_, ?_⟩ <;>
            simp [hfalse, List.nodup_append, hnd, hmem, h5, List.length_append]
        · intro x
          simp [hfalse, h5, List.mem_append, or_comm]
    · have hold : ¬ 5 ≤ s.spamReports.length := fun h' => h5 (Nat.le_succ_of_le h')
      have hfalse : s.isSpam = false := by simp [hspam, hold]
      constructor
      · refine ⟨?_, ?_, ?_⟩ <;>
          simp [hfalse, List.nodup_append, hnd, hmem, h5, hold, hstat,
            List.length_append]
      · intro x
        simp [hfalse, h5, List.mem_append, or_comm]

lemma applyFlags_inv {base : Status} (actors : List UserId) (s : Report)
    (h : SpamInv base s) :
    SpamInv base (applyFlags actors s)
    ∧ ∀ x, x ∈ (applyFlags actors s).spamReports ↔
        (x ∈ actors ∨ x ∈ s.spamReports) := by
  induction actors generalizing s with
  | nil => exact ⟨h, fun x => by simp [applyFlags]⟩
  | cons a as ih =>
      have hstep := flagSpam_inv base a s h
      have hrec := ih (flagSpam a s) hstep.1
      have heq : applyFlags (a :: as) s = applyFlags as (flagSpam a s) := by
        simp [applyFlags]
      refine ⟨heq ▸ hrec.1, fun x => ?_⟩
      rw [heq]
      rw [hrec.2 x]
      rw [hstep.2 x]
      simp [List.mem_cons, or_assoc, or_comm, or_left_comm]

/-- C1.  Starting from a report with no spam flags, after any sequence of
`FlagSpam` calls: `isSpam` is true exactly when the set of distinct flagging
users has reached 5 members, `status` is forced to `spam` exactly then
(otherwise it keeps its prior value), the spam-reporter set holds exactly the
distinct flagging users, and a repeated flag by an actor already in the set
changes nothing. -/
theorem c1_spam_threshold (r0 : Report) (actors : List UserId)
    (h0 : r0.spamReports = []) (h1 : r0.isSpam = false) :
    ((applyFlags actors r0).isSpam = true ↔ 5 ≤ actors.toFinset.card)
    ∧ ((applyFlags actors r0).status =
        if 5 ≤ actors.toFinset.card then Status.spam else r0.status)
    ∧ (∀ x, x ∈ (applyFlags actors r0).spamReports ↔ x ∈ actors)
    ∧ (∀ a, a ∈ (applyFlags actors r0).spamReports →
        flagSpam a (applyFlags actors r0) = applyFlags actors r0) := by
  have hbase : SpamInv r0.status r0 := by
    refine ⟨by simp [h0], by simp [h0, h1], by simp [h0]⟩
  obtain ⟨hinv, hmem⟩ := applyFlags_inv actors r0 hbase
  have hmem' : ∀ x, x ∈ (applyFlags actors r0).spamReports ↔ x ∈ actors := by
    intro x; rw [hmem x]; simp [h0]
  have hcard : (applyFlags actors r0).spamReports.length = actors.toFinset.card := by
    have hfin : (applyFlags actors r0).spamReports.toFinset = actors.toFinset := by
      ext x
      simp [List.mem_toFinset, hmem' x]
    rw [← hfin]
    exact (List.toFinset_card_of_nodup hinv.1).symm
  obtain ⟨hnd, hspam, hstat⟩ := hinv
  refine ⟨?_, ?_, hmem', ?_⟩
  · rw [hspam, hcard]; simp
  · rw [hstat, hcard]
  · intro a ha
    exact flagSpam_of_mem ⟨hnd, hspam, hstat⟩ ha

/-- C1 witness: four distinct flags do not flip the report, the fifth does,
and a repeated flag is a no-op. -/
theorem c1_spam_threshold_witness :
    rEx.spamReports = [] ∧ rEx.isSpam = false
    ∧ ((applyFlags [10, 11, 12, 13, 14] rEx).isSpam = true ↔
        5 ≤ ([10, 11, 12, 13, 14] : List UserId).toFinset.card) :=
  ⟨rfl, rfl, (c1_spam_threshold rEx [10, 11, 12, 13, 14] rfl rfl).1⟩

/-! ## C2: vote sets stay disjoint and voting is idempotent -/

/-- Well-formedness of the two vote sets. -/
def VoteInv (s : Report) : Prop :=
  s.confirms.Nodup ∧ s.disputes.Nodup
  ∧ ∀ u, u ∈ s.confirms → u ∉ s.disputes

lemma filter_ne_of_not_mem {u : UserId} {l : List UserId} (h : u ∉ l) :
    l.filter (fun x => !decide (x = u)) = l := by
  apply List.filter_eq_self.mpr
  intro x hx
  simp only [Bool.not_eq_true', decide_eq_false_iff_not]
  rintro rfl
  exact h hx

lemma addVote_confirm_mem {u : UserId} {s : Report} (h : VoteInv s)
    (hm : u ∈ s.confirms) : addVote u VoteType.confirm s = s := by
  have hnd : u ∉ s.disputes := h.2.2 u hm
  simp [addVote, hm, filter_ne_of_not_mem hnd]

lemma addVote_dispute_mem {u : UserId} {s : Report} (h : VoteInv s)
    (hm : u ∈ s.disputes) : addVote u VoteType.dispute s = s := by
  have hnc : u ∉ s.confirms := fun hc => h.2.2 u hc hm
  simp [addVote, hm, filter_ne_of_not_mem hnc]

lemma addVote_inv (u : UserId) (vt : VoteType) (s : Report) (h : VoteInv s) :
    VoteInv (addVote u vt s) := by
  obtain ⟨hc, hd, hdisj⟩ := h
  cases vt with
  | confirm =>
      by_cases hm : u ∈ s.confirms
      · rw [addVote_confirm_mem ⟨hc, hd, hdisj⟩ hm]
        exact ⟨hc, hd, hdisj⟩
      · refine ⟨?_, hd.filter _, ?_⟩
        · simp [addVote, hm, List.nodup_append, hc]
        · intro x hx hx'
          simp only [addVote, hm, if_false, List.mem_append,
            List.mem_singleton] at hx
          have hxne : x ≠ u := by
            rcases List.mem_filter.mp hx' with ⟨-, hdec⟩
            simpa using hdec
          rcases hx with hx | rfl
          · exact hdisj x hx (List.mem_of_mem_filter hx')
          · exact hxne rfl
  | dispute =>
      by_cases hm : u ∈ s.disputes
      · rw [addVote_dispute_mem ⟨hc, hd, hdisj⟩ hm]
        exact ⟨hc, hd, hdisj⟩
      · refine ⟨hc.filter _, ?_, ?_⟩
        · simp [addVote, hm, List.nodup_append, hd]
        · intro x hx hx'
          have hxne : x ≠ u := by
            rcases List.mem_filter.mp hx with ⟨-, hdec⟩
            simpa using hdec
          simp only [addVote, hm, if_false, List.mem_append,
            List.mem_singleton] at hx'
          rcases hx' with hx' | rfl
          · exact hdisj x (List.mem_of_mem_filter hx) hx'
          · exact hxne rfl

lemma applyVotes_inv (votes : List (UserId × VoteType)) (s : Report)
    (h : VoteInv s) : VoteInv (applyVotes votes s) := by
  induction votes generalizing s with
  | nil => exact h
  | cons v vs ih =>
      have heq : applyVotes (v :: vs) s = applyVotes vs (addVote v.1 v.2 s) := by
        simp [applyVotes]
      exact heq ▸ ih _ (addVote_inv v.1 v.2 s h)

/-- C2.  After any sequence of `Vote` calls starting from empty vote sets, no
user appears in both the confirms and the disputes set, and a repeated vote of
the same type by the same actor changes neither set. -/
theorem c2_vote_disjoint (r0 : Report) (votes : List (UserId × VoteType))
    (h1 : r0.confirms = []) (h2 : r0.disputes = []) :
    (∀ u, ¬ (u ∈ (applyVotes votes r0).confirms
        ∧ u ∈ (applyVotes votes r0).disputes))
    ∧ (∀ u, u ∈ (applyVotes votes r0).confirms →
        addVote u VoteType.confirm (applyVotes votes r0) = applyVotes votes r0)
    ∧ (∀ u, u ∈ (applyVotes votes r0).disputes →
        addVote u VoteType.dispute (applyVotes votes r0) = applyVotes votes r0) := by
  have hbase : VoteInv r0 := by
    refine ⟨by simp [h1], by simp [h2], by simp [h1]⟩
  have hinv := applyVotes_inv votes r0 hbase
  refine ⟨fun u hu => hinv.2.2 u hu.1 hu.2,
    fun u hu => addVote_confirm_mem hinv hu,
    fun u hu => addVote_dispute_mem hinv hu⟩

/-- C2 witness: two users confirm, the first switches to dispute; user 2 is
not in both sets (and indeed ends with confirms `[2]`, disputes `[1]`). -/
theorem c2_vote_disjoint_witness :
    rEx.confirms = [] ∧ rEx.disputes = []
    ∧ (applyVotes
        [(1, VoteType.confirm), (2, VoteType.confirm), (1, VoteType.dispute)]
        rEx).confirms = [2]
    ∧ (applyVotes
        [(1, VoteType.confirm), (2, VoteType.confirm), (1, VoteType.dispute)]
        rEx).disputes = [1]
    ∧ ¬ (2 ∈ (applyVotes
        [(1, VoteType.confirm), (2, VoteType.confirm), (1, VoteType.dispute)]
        rEx).confirms
      ∧ 2 ∈ (applyVotes
        [(1, VoteType.confirm), (2, VoteType.confirm), (1, VoteType.dispute)]
        rEx).disputes) :=
  ⟨rfl, rfl, by decide, by decide,
    (c2_vote_disjoint rEx
      [(1, VoteType.confirm), (2, VoteType.confirm), (1, VoteType.dispute)]
      rfl rfl).1 2⟩

/-! ## C3: the edit window -/

lemma canEdit_iff (r : Report) (u : UserId) (now : Nat) :
    canEdit r u now (30 * 60 * 1000) = true ↔
      (u = r.reporterId ∧ r.status = Status.reported
        ∧ now - r.createdAt < 30 * 60 * 1000) := by
  constructor
  · intro h
    by_cases h1 : r.status = Status.reported
    · by_cases h2 : r.reporterId = u
      · refine ⟨h2.symm, h1, ?_⟩
        simpa [canEdit, h1, h2] using h
      · exact absurd h (by simp [canEdit, h1, h2])
    · exact absurd h (by simp [canEdit, h1])
  · rintro ⟨rfl, h1, h3⟩
    simp [canEdit, h1, h3]

/-- C3.  A PATCH on an existing report succeeds exactly when the editor is the
reporter, the status is still `reported`, and strictly less than 30 minutes
have elapsed since creation; in every other case the handler returns the 403
error before saving, so the stored report is unchanged. -/
theorem c3_edit_window (r : Report) (editor : UserId) (now : Nat)
    (f : UpdateFields) :
    ((updateReport editor now f r).isOk = true ↔
      (editor = r.reporterId ∧ r.status = Status.reported
        ∧ now - r.createdAt < 30 * 60 * 1000))
    ∧ (¬ (editor = r.reporterId ∧ r.status = Status.reported
          ∧ now - r.createdAt < 30 * 60 * 1000) →
        updateReport editor now f r = Except.error ErrKind.forbidden
        ∧ updateReportPersisted editor now f r = r) := by
  have hce := canEdit_iff r editor now
  constructor
  · constructor
    · intro hok
      by_cases h : canEdit r editor now (30 * 60 * 1000)
      · exact hce.mp h
      · simp [updateReport, h, Except.isOk, Except.toBool] at hok
    · intro h
      simp [updateReport, hce.mpr h, Except.isOk, Except.toBool]
  · intro h
    have hfalse : ¬ (canEdit r editor now (30 * 60 * 1000) = true) :=
      fun hc => h (hce.mp hc)
    refine ⟨by simp [updateReport, hfalse], ?_⟩
    simp [updateReportPersisted, updateReport, hfalse]

/-- C3 witness: on a fresh report the reporter's edit succeeds at 29m59s,
fails at 30m01s, fails for a non-reporter, and fails once the status left
`reported`. -/
theorem c3_edit_window_witness :
    (updateReport 1 1799000 fEmpty rEx).isOk = true
    ∧ updateReport 1 1801000 fEmpty rEx = Except.error ErrKind.forbidden
    ∧ updateReport 99 1000 fEmpty rEx = Except.error ErrKind.forbidden
    ∧ updateReport 1 1000 fEmpty { rEx with status := Status.verified }
        = Except.error ErrKind.forbidden :=
  ⟨(c3_edit_window rEx 1 1799000 fEmpty).1.mpr (by decide),
   ((c3_edit_window rEx 1 1801000 fEmpty).2 (by decide)).1,
   ((c3_edit_window rEx 99 1000 fEmpty).2 (by decide)).1,
   ((c3_edit_window { rEx with status := Status.verified } 1 1000 fEmpty).2
     (by decide)).1⟩

/-! ## C10 and C6: what a successful edit does to the document -/

/-- Exact shape of a successfully edited document. -/
lemma updateReport_ok_eq {editor : UserId} {now : Nat} {f : UpdateFields}
    {r : Report} {out : Report × AuditEntry}
    (h : updateReport editor now f r = Except.ok out) :
    out.1 = { r with
      title := f.title.getD r.title,
      description := f.description.getD r.description,
      category := f.category.getD r.category,
      severity := f.severity.getD r.severity,
      mediaUrls := f.mediaUrls.getD r.mediaUrls,
      isEdited := true, editedAt := some now,
      editHistory := r.editHistory ++
        [{ editedAt := now,
           title := f.title.getD r.title,
           description := f.description.getD r.description,
           category := f.category.getD r.category,
           severity := f.severity.getD r.severity }] } := by
  rw [updateReport] at h
  by_cases hc : canEdit r editor now (30 * 60 * 1000)
  · rw [if_neg (by simp [hc])] at h
    obtain ⟨ft, fd, fc, fs, fm⟩ := f
    rw [← Except.ok.inj h]
    cases ft <;> cases fd <;> cases fc <;> cases fs <;> rfl
  · rw [if_pos (by simp [hc])] at h
    exact absurd h (by simp)

/-- C10.  A successful edit changes only the content fields (to the provided
value when present, otherwise keeping the prior value) and the edit-tracking
fields; every other field of the document is preserved. -/
theorem c10_edit_frame (r : Report) (editor : UserId) (now : Nat)
    (f : UpdateFields) (out : Report × AuditEntry)
    (h : updateReport editor now f r = Except.ok out) :
    out.1.status = r.status ∧ out.1.reporterId = r.reporterId
    ∧ out.1.campusId = r.campusId
    ∧ out.1.locationLon = r.locationLon ∧ out.1.locationLat = r.locationLat
    ∧ out.1.isAnonymous = r.isAnonymous
    ∧ out.1.confirms = r.confirms ∧ out.1.disputes = r.disputes
    ∧ out.1.commentsCount = r.commentsCount ∧ out.1.viewsCount = r.viewsCount
    ∧ out.1.spamReports = r.spamReports ∧ out.1.isSpam = r.isSpam
    ∧ out.1.resolvedBy = r.resolvedBy ∧ out.1.resolvedAt = r.resolvedAt
    ∧ out.1.moderatorNotes = r.moderatorNotes
    ∧ out.1.assignedTo = r.assignedTo ∧ out.1.createdAt = r.createdAt
    ∧ out.1.title = f.title.getD r.title
    ∧ out.1.description = f.description.getD r.description
    ∧ out.1.category = f.category.getD r.category
    ∧ out.1.severity = f.severity.getD r.severity
    ∧ out.1.mediaUrls = f.mediaUrls.getD r.mediaUrls
    ∧ out.1.isEdited = true ∧ out.1.editedAt = some now
    ∧ (∃ entry, out.1.editHistory = r.editHistory ++ [entry]) := by
  rw [updateReport_ok_eq h]
  refine ⟨rfl, rfl, rfl, rfl, rfl, rfl, rfl, rfl, rfl, rfl, rfl, rfl, rfl,
    rfl, rfl, rfl, rfl, rfl, rfl, rfl, rfl, rfl, rfl, rfl, ⟨_, rfl⟩⟩

/-- The concrete result of editing `rEx`'s severity to 5 at t=1s. -/
def c10outEx : Report × AuditEntry :=
  (updateReport 1 1000 ⟨none, none, none, some 5, none⟩ rEx).toOption.getD
    (rEx, { actorId := 0, action := AuditAction.edit_report,
            changes := AuditChanges.noChanges })

/-- C10 witness: an edit that only changes the severity keeps the status. -/
theorem c10_edit_frame_witness : c10outEx.1.status = rEx.status :=
  (c10_edit_frame rEx 1 1000 ⟨none, none, none, some 5, none⟩ c10outEx rfl).1

/-- C6 counterexample: editing the title of `rEx` appends a history entry
whose recorded title is the NEW title, not the pre-edit title, so the entry is
not a snapshot of the prior field values. -/
theorem c6_counterexample :
    ((updateReportPersisted 1 1000
        ⟨some "Person left the area", none, none, none, none⟩
        rEx).editHistory.map (fun e => e.title)) = ["Person left the area"]
    ∧ rEx.title = "Suspicious person near library"
    ∧ ¬ (((updateReportPersisted 1 1000
        ⟨some "Person left the area", none, none, none, none⟩
        rEx).editHistory.map (fun e => e.title)) = [rEx.title]) :=
  ⟨rfl, rfl, by decide⟩

/-- C6 (amended).  On every successful edit, the entry appended to the edit
history records the report's post-edit values of title, description, category
and severity (which coincide with the prior values exactly for the fields the
request omitted); the history itself is append-only. -/
theorem c6_amended_history (r : Report) (editor : UserId) (now : Nat)
    (f : UpdateFields) (out : Report × AuditEntry)
    (h : updateReport editor now f r = Except.ok out) :
    out.1.editHistory = r.editHistory ++
      [{ editedAt := now, title := out.1.title,
         description := out.1.description, category := out.1.category,
         severity := out.1.severity }] := by
  rw [updateReport_ok_eq h]

/-- The concrete result of editing `rEx`'s title at t=1s. -/
def c6outEx : Report × AuditEntry :=
  (updateReport 1 1000 ⟨some "Person left the area", none, none, none, none⟩
    rEx).toOption.getD
    (rEx, { actorId := 0, action := AuditAction.edit_report,
            changes := AuditChanges.noChanges })

/-- C6 witness: instance of the amended statement on a concrete edit. -/
theorem c6_amended_history_witness :
    c6outEx.1.editHistory = rEx.editHistory ++
      [{ editedAt := 1000, title := c6outEx.1.title,
         description := c6outEx.1.description, category := c6outEx.1.category,
         severity := c6outEx.1.severity }] :=
  c6_amended_history rEx 1 1000
    ⟨some "Person left the area", none, none, none, none⟩ c6outEx rfl

/-! ## C4: `resolvedBy`/`resolvedAt` versus status -/

/-- The direction of the claimed invariant that the code maintains. -/
def ResolvedInv (s : Report) : Prop :=
  s.status = Status.resolved → s.resolvedBy.isSome ∧ s.resolvedAt.isSome

lemma updateReportPersisted_frame (e : UserId) (n : Nat) (f : UpdateFields)
    (r : Report) :
    (updateReportPersisted e n f r).status = r.status
    ∧ (updateReportPersisted e n f r).resolvedBy = r.resolvedBy
    ∧ (updateReportPersisted e n f r).resolvedAt = r.resolvedAt := by
  unfold updateReportPersisted
  cases hu : updateReport e n f r with
  | error err => exact ⟨rfl, rfl, rfl⟩
  | ok out =>
      obtain ⟨r', aud⟩ := out
      have h' : r' = _ := updateReport_ok_eq hu
      dsimp only
      rw [h']
      exact ⟨rfl, rfl, rfl⟩

lemma flagSpam_frame (a : UserId) (r : Report) :
    (flagSpam a r).resolvedBy = r.resolvedBy
    ∧ (flagSpam a r).resolvedAt = r.resolvedAt
    ∧ ((flagSpam a r).status = r.status ∨ (flagSpam a r).status = Status.spam) := by
  simp only [flagSpam]
  split_ifs <;> simp

lemma addVote_frame (u : UserId) (vt : VoteType) (r : Report) :
    (addVote u vt r).status = r.status
    ∧ (addVote u vt r).resolvedBy = r.resolvedBy
    ∧ (addVote u vt r).resolvedAt = r.resolvedAt := by
  cases vt <;> exact ⟨rfl, rfl, rfl⟩

lemma retractReport_frame (a : UserId) (adm : Bool) (r : Report) :
    (retractReport a adm r).resolvedBy = r.resolvedBy
    ∧ (retractReport a adm r).resolvedAt = r.resolvedAt
    ∧ ((retractReport a adm r).status = r.status
        ∨ (retractReport a adm r).status = Status.invalid) := by
  unfold retractReport
  split_ifs <;> simp

lemma applyModNotes_frame (notes : Option String) (r : Report) :
    (applyModNotes notes r).status = r.status
    ∧ (applyModNotes notes r).resolvedBy = r.resolvedBy
    ∧ (applyModNotes notes r).resolvedAt = r.resolvedAt := by
  cases notes <;> exact ⟨rfl, rfl, rfl⟩

lemma applyAssign_frame (security : UserId → Bool) (asg : Option UserId)
    (r : Report) :
    (applyAssign security asg r).status = r.status
    ∧ (applyAssign security asg r).resolvedBy = r.resolvedBy
    ∧ (applyAssign security asg r).resolvedAt = r.resolvedAt := by
  cases asg with
  | none => exact ⟨rfl, rfl, rfl⟩
  | some uid =>
      by_cases h : security uid <;> simp [applyAssign, h]

lemma applyStatusChange_inv (aid : UserId) (now : Nat) (st : Option Status)
    (r : Report) (h : ResolvedInv r) :
    ResolvedInv (applyStatusChange aid now st r)
    ∧ (r.resolvedBy.isSome → (applyStatusChange aid now st r).resolvedBy.isSome)
    ∧ (r.resolvedAt.isSome → (applyStatusChange aid now st r).resolvedAt.isSome) := by
  cases st with
  | none => exact ⟨h, fun hb => hb, fun ha => ha⟩
  | some s =>
      by_cases hs : s = Status.resolved
      · subst hs
        refine ⟨fun _ => ⟨?_, ?_⟩, fun _ => ?_, fun _ => ?_⟩ <;>
          simp [applyStatusChange]
      · refine ⟨fun hst => ?_, fun hb => ?_, fun ha => ?_⟩
        · rw [show (applyStatusChange aid now (some s) r).status = s from by
            simp [applyStatusChange, hs]] at hst
          exact absurd hst hs
        · simpa [applyStatusChange, hs] using hb
        · simpa [applyStatusChange, hs] using ha

lemma updateReportStatus_ok_report {actor : Actor} {now : Nat}
    {security : UserId → Bool} {input : ModUpdateInput} {r : Report}
    {res : ModUpdateResult}
    (h : updateReportStatus actor now security input r = Except.ok res) :
    res.report = applyAssign security input.assignedTo
      (applyModNotes input.moderatorNotes
        (applyStatusChange actor.userId now input.status r)) := by
  rw [updateReportStatus] at h
  by_cases hacc : r.campusId ≠ actor.campusId ∧ actor.role ≠ Role.superAdmin
  · rw [if_pos hacc] at h
    exact absurd h (by simp)
  · rw [if_neg hacc] at h
    exact (congrArg ModUpdateResult.report (Except.ok.inj h)).symm

lemma stepOp_resolvedInv (security : UserId → Bool) (op : Op) (r : Report)
    (h : ResolvedInv r) :
    ResolvedInv (stepOp security op r)
    ∧ (r.resolvedBy.isSome → (stepOp security op r).resolvedBy.isSome)
    ∧ (r.resolvedAt.isSome → (stepOp security op r).resolvedAt.isSome) := by
  cases op with
  | edit e n f =>
      obtain ⟨h1, h2, h3⟩ := updateReportPersisted_frame e n f r
      refine ⟨fun hst => ?_, fun hb => ?_, fun ha => ?_⟩
      · have := h (by rw [← h1]; exact hst)
        rw [stepOp, h2, h3]
        exact this
      · rw [stepOp, h2]; exact hb
      · rw [stepOp, h3]; exact ha
  | retract a adm =>
      obtain ⟨h2, h3, h1⟩ := retractReport_frame a adm r
      refine ⟨fun hst => ?_, fun hb => ?_, fun ha => ?_⟩
      · rw [stepOp] at hst ⊢
        rw [h2, h3]
        rcases h1 with h1 | h1
        · exact h (h1 ▸ hst)
        · rw [h1] at hst; cases hst
      · rw [stepOp, h2]; exact hb
      · rw [stepOp, h3]; exact ha
  | vote a vt =>
      obtain ⟨h1, h2, h3⟩ := addVote_frame a vt r
      refine ⟨fun hst => ?_, fun hb => ?_, fun ha => ?_⟩
      · rw [stepOp] at hst ⊢
        rw [h2, h3]
        exact h (h1 ▸ hst)
      · rw [stepOp, h2]; exact hb
      · rw [stepOp, h3]; exact ha
  | comment =>
      exact ⟨fun hst => h hst, fun hb => hb, fun ha => ha⟩
  | flag a =>
      obtain ⟨h2, h3, h1⟩ := flagSpam_frame a r
      refine ⟨fun hst => ?_, fun hb => ?_, fun ha => ?_⟩
      · rw [stepOp] at hst ⊢
        rw [h2, h3]
        rcases h1 with h1 | h1
        · exact h (h1 ▸ hst)
        · rw [h1] at hst; cases hst
      · rw [stepOp, h2]; exact hb
      · rw [stepOp, h3]; exact ha
  | modUpdate actor n input =>
      cases hu : updateReportStatus actor n security input r with
      | error err =>
          refine ⟨fun hst => ?_, fun hb => ?_, fun ha => ?_⟩ <;>
            simp only [stepOp, hu] at *
          · exact h hst
          · exact hb
          · exact ha
      | ok res =>
          have hrep := updateReportStatus_ok_report hu
          obtain ⟨hsc, hbm, ham⟩ :=
            applyStatusChange_inv actor.userId n input.status r h
          obtain ⟨g1, g2, g3⟩ :=
            applyModNotes_frame input.moderatorNotes
              (applyStatusChange actor.userId n input.status r)
          obtain ⟨k1, k2, k3⟩ :=
            applyAssign_frame security input.assignedTo
              (applyModNotes input.moderatorNotes
                (applyStatusChange actor.userId n input.status r))
          refine ⟨fun hst => ?_, fun hb => ?_, fun ha => ?_⟩
          · rw [stepOp, hu] at hst ⊢
            simp only [hrep] at hst ⊢
            rw [k2, g2, k3, g3]
            exact hsc (by rw [← g1, ← k1]; exact hst)
          · rw [stepOp, hu]
            simp only [hrep]
            rw [k2, g2]
            exact hbm hb
          · rw [stepOp, hu]
            simp only [hrep]
            rw [k3, g3]
            exact ham ha

lemma runOps_resolvedInv (security : UserId → Bool) (ops : List Op)
    (r : Report) (h : ResolvedInv r) :
    ResolvedInv (runOps security ops r)
    ∧ (r.resolvedBy.isSome → (runOps security ops r).resolvedBy.isSome)
    ∧ (r.resolvedAt.isSome → (runOps security ops r).resolvedAt.isSome) := by
  induction ops generalizing r with
  | nil => exact ⟨h, fun hb => hb, fun ha => ha⟩
  | cons op ops ih =>
      have hstep := stepOp_resolvedInv security op r h
      have hrec := ih (stepOp security op r) hstep.1
      have heq : runOps security (op :: ops) r
          = runOps security ops (stepOp security op r) := by
        simp [runOps]
      exact ⟨heq ▸ hrec.1, fun hb => heq ▸ hrec.2.1 (hstep.2.1 hb),
        fun ha => heq ▸ hrec.2.2 (hstep.2.2 ha)⟩

/-- C4 counterexample: a moderator resolves the report and then moves it to
`verified`; `resolvedBy`/`resolvedAt` remain set although the status is no
longer `resolved`, so the claimed "if and only if" invariant fails. -/
theorem c4_counterexample :
    (runOps (fun _ => false)
      [Op.modUpdate modEx 5000 ⟨some Status.resolved, none, none⟩,
       Op.modUpdate modEx 6000 ⟨some Status.verified, none, none⟩]
      rEx).status = Status.verified
    ∧ (runOps (fun _ => false)
      [Op.modUpdate modEx 5000 ⟨some Status.resolved, none, none⟩,
       Op.modUpdate modEx 6000 ⟨some Status.verified, none, none⟩]
      rEx).resolvedBy = some 99
    ∧ (runOps (fun _ => false)
      [Op.modUpdate modEx 5000 ⟨some Status.resolved, none, none⟩,
       Op.modUpdate modEx 6000 ⟨some Status.verified, none, none⟩]
      rEx).resolvedAt = some 5000 := by
  refine ⟨by decide, by decide, by decide⟩

/-- C4 (amended).  Along any sequence of lifecycle operations:
if the status is `resolved` then `resolvedBy`/`resolvedAt` are set, and once
set they are never cleared — in particular, after a moderator moves a
previously resolved report to any other status they REMAIN set. -/
theorem c4_amended_resolved (security : UserId → Bool) (ops : List Op)
    (r0 : Report)
    (h : r0.status = Status.resolved →
      r0.resolvedBy.isSome ∧ r0.resolvedAt.isSome) :
    ((runOps security ops r0).status = Status.resolved →
      (runOps security ops r0).resolvedBy.isSome
      ∧ (runOps security ops r0).resolvedAt.isSome)
    ∧ (r0.resolvedBy.isSome → (runOps security ops r0).resolvedBy.isSome)
    ∧ (r0.resolvedAt.isSome → (runOps security ops r0).resolvedAt.isSome) :=
  runOps_resolvedInv security ops r0 h

/-- C4 witness: resolving a fresh report yields a state where both resolver
fields are set. -/
theorem c4_amended_resolved_witness :
    (runOps (fun _ => false)
      [Op.modUpdate modEx 5000 ⟨some Status.resolved, none, none⟩]
      rEx).resolvedBy.isSome
    ∧ (runOps (fun _ => false)
      [Op.modUpdate modEx 5000 ⟨some Status.resolved, none, none⟩]
      rEx).resolvedAt.isSome :=
  (c4_amended_resolved (fun _ => false)
    [Op.modUpdate modEx 5000 ⟨some Status.resolved, none, none⟩] rEx
    (by decide)).1 (by decide)

/-! ## C8: moderator resolves a reported report -/

lemma updateReportStatus_isOk (actor : Actor) (now : Nat)
    (security : UserId → Bool) (input : ModUpdateInput) (r : Report)
    (hacc : r.campusId = actor.campusId ∨ actor.role = Role.superAdmin) :
    ∃ res, updateReportStatus actor now security input r = Except.ok res := by
  rw [updateReportStatus, if_neg (by rcases hacc with h | h <;> simp [h])]
  exact ⟨_, rfl⟩

lemma updateReportStatus_ok_eq {actor : Actor} {now : Nat}
    {security : UserId → Bool} {input : ModUpdateInput} {r : Report}
    {res : ModUpdateResult}
    (h : updateReportStatus actor now security input r = Except.ok res) :
    res = { report := applyAssign security input.assignedTo
              (applyModNotes input.moderatorNotes
                (applyStatusChange actor.userId now input.status r)),
            audit :=
              { actorId := actor.userId,
                action := (match input.status with
                  | some Status.verified => AuditAction.verify_report
                  | some Status.invalid => AuditAction.invalidate_report
                  | _ => AuditAction.resolve_report),
                changes := AuditChanges.statusChange r.status
                  (applyAssign security input.assignedTo
                    (applyModNotes input.moderatorNotes
                      (applyStatusChange actor.userId now input.status r))).status },
            notification :=
              if r.status ≠ (applyAssign security input.assignedTo
                  (applyModNotes input.moderatorNotes
                    (applyStatusChange actor.userId now input.status r))).status
                ∧ r.reporterId ≠ actor.userId then
                some { userId := r.reporterId,
                       type := NotifType.moderator_action,
                       priority :=
                         if input.status = some Status.resolved then
                           Priority.medium
                         else Priority.low }
              else none } := by
  rw [updateReportStatus] at h
  by_cases hacc : r.campusId ≠ actor.campusId ∧ actor.role ≠ Role.superAdmin
  · rw [if_pos hacc] at h
    exact absurd h (by simp)
  · rw [if_neg hacc] at h
    exact (Except.ok.inj h).symm

/-- C8.  When a moderator with campus access sets a `reported` report to
`resolved` and is not the reporter: the call succeeds, `resolvedBy` and
`resolvedAt` become set, the audit entry has action `resolve_report` with
before-status `reported` and after-status `resolved`, and a
`moderator_action` notification for the reporter is created. -/
theorem c8_resolve_scenario (actor : Actor) (now : Nat)
    (security : UserId → Bool) (notes : Option String) (asg : Option UserId)
    (r : Report)
    (h1 : r.status = Status.reported)
    (h2 : r.campusId = actor.campusId ∨ actor.role = Role.superAdmin)
    (h3 : r.reporterId ≠ actor.userId) :
    ∃ res, updateReportStatus actor now security
        ⟨some Status.resolved, notes, asg⟩ r = Except.ok res
      ∧ res.report.status = Status.resolved
      ∧ res.report.resolvedBy = some actor.userId
      ∧ res.report.resolvedAt = some now
      ∧ res.audit.action = AuditAction.resolve_report
      ∧ res.audit.changes
          = AuditChanges.statusChange Status.reported Status.resolved
      ∧ res.notification = some
          { userId := r.reporterId, type := NotifType.moderator_action,
            priority := Priority.medium } := by
  obtain ⟨res, hok⟩ := updateReportStatus_isOk actor now security
    ⟨some Status.resolved, notes, asg⟩ r h2
  have hres := updateReportStatus_ok_eq hok
  have hr1s : (applyStatusChange actor.userId now (some Status.resolved)
        r).status = Status.resolved
      ∧ (applyStatusChange actor.userId now (some Status.resolved)
        r).resolvedBy = some actor.userId
      ∧ (applyStatusChange actor.userId now (some Status.resolved)
        r).resolvedAt = some now := by
    simp [applyStatusChange]
  obtain ⟨g1, g2, g3⟩ := applyModNotes_frame notes
    (applyStatusChange actor.userId now (some Status.resolved) r)
  obtain ⟨k1, k2, k3⟩ := applyAssign_frame security asg
    (applyModNotes notes
      (applyStatusChange actor.userId now (some Status.resolved) r))
  refine ⟨res, hok, ?_, ?_, ?_, ?_, ?_, ?_⟩
  · rw [hres]; dsimp only
    rw [k1, g1, hr1s.1]
  · rw [hres]; dsimp only
    rw [k2, g2, hr1s.2.1]
  · rw [hres]; dsimp only
    rw [k3, g3, hr1s.2.2]
  · rw [hres]
  · rw [hres]; dsimp only
    rw [k1, g1, hr1s.1, h1]
  · rw [hres]; dsimp only
    rw [if_pos ⟨by rw [h1, k1, g1, hr1s.1]; decide, h3⟩]
    simp

/-- C8 witness: the moderator `modEx` resolves the fresh report `rEx`. -/
theorem c8_resolve_scenario_witness :
    ∃ res, updateReportStatus modEx 5000 (fun _ => false)
        ⟨some Status.resolved, none, none⟩ rEx = Except.ok res
      ∧ res.report.status = Status.resolved
      ∧ res.report.resolvedBy = some modEx.userId
      ∧ res.report.resolvedAt = some 5000
      ∧ res.audit.action = AuditAction.resolve_report
      ∧ res.audit.changes
          = AuditChanges.statusChange Status.reported Status.resolved
      ∧ res.notification = some
          { userId := rEx.reporterId, type := NotifType.moderator_action,
            priority := Priority.medium } :=
  c8_resolve_scenario modEx 5000 (fun _ => false) none none rEx rfl
    (Or.inl rfl) (by decide)

/-! ## C5: nearby query scoping -/

/-- C5.  Any report returned by `findNearby` (for in-range coordinates and a
radius within [100, 10000]) belongs to the requested campus, and when no
status filter is supplied its status is one of the four non-excluded
statuses. -/
theorem c5_nearby_scope (db : List Report) (campusId : CampusId)
    (lon lat : Int) (radius : Nat)
    (withinDistance : Int → Int → Nat → Report → Bool) (f : NearbyFilters)
    (_hr1 : 100 ≤ radius) (_hr2 : radius ≤ 10000)
    (_hlon1 : -180 ≤ lon) (_hlon2 : lon ≤ 180)
    (_hlat1 : -90 ≤ lat) (_hlat2 : lat ≤ 90)
    (r : Report)
    (hmem : r ∈ findNearby db campusId lon lat radius withinDistance f) :
    r.campusId = campusId
    ∧ (f.status = none → r.status ∈ defaultStatuses) := by
  rw [findNearby, List.mem_mergeSort] at hmem
  have hq := (List.mem_filter.mp hmem).2
  rw [matchesNearbyQuery] at hq
  simp only [Bool.and_eq_true, decide_eq_true_eq] at hq
  obtain ⟨⟨⟨⟨⟨hA, hB⟩, hC⟩, hD⟩, hE⟩, hF⟩ := hq
  refine ⟨hA, fun hs => ?_⟩
  rw [hs] at hE
  simpa using hE

/-- C5 witness: the fresh report of campus 1 is returned by an unfiltered
query on campus 1 and satisfies both conclusions. -/
theorem c5_nearby_scope_witness :
    rEx.campusId = 1
    ∧ ((⟨none, none, none, none⟩ : NearbyFilters).status = none →
        rEx.status ∈ defaultStatuses) :=
  c5_nearby_scope [rEx] 1 (-122) 37 1000 (fun _ _ _ _ => true)
    ⟨none, none, none, none⟩ (by decide) (by decide) (by decide) (by decide)
    (by decide) (by decide) rEx
    (by rw [findNearby, List.mem_mergeSort]; decide)

/-! ## C7: push-signal threshold -/

/-- A campus whose configured push threshold is 5. -/
def campusStrict : Campus :=
  { id := 1, settings := { defaultCampusSettings with minSeverityForPush := 5 } }

/-- A creation request with severity 4. -/
def inputSev4 : CreateInput :=
  { category := Category.safety, severity := 4,
    title := "Suspicious person near library",
    description := "Someone acting strangely", locationLon := -122,
    locationLat := 37, mediaUrls := [], isAnonymous := false }

/-- C7 counterexample: with the default env threshold (4), creating a
severity-4 report on a campus configured with `minSeverityForPush = 5` emits
the push signal although the severity is below that campus's threshold — the
code reads the env setting, not the campus setting. -/
theorem c7_counterexample :
    (createReport defaultEnv 1 campusStrict.id 0 inputSev4).pushSignal = true
    ∧ specCampusPushSignal campusStrict inputSev4.severity = false := by
  refine ⟨by decide, by decide⟩

/-- C7 (amended).  `createReport` signals the external notification fan-out
exactly when severity ≥ the server-wide `env.notifications.minSeverityForPush`
(default 4); the creating campus's own setting is never consulted, so the
signal is identical across campuses. -/
theorem c7_amended_push_signal (env : EnvConfig) (reporter : UserId)
    (campusA campusB : Campus) (now nowB : Nat) (input : CreateInput) :
    ((createReport env reporter campusA.id now input).pushSignal = true ↔
      env.minSeverityForPush ≤ input.severity)
    ∧ (createReport env reporter campusA.id now input).pushSignal
        = (createReport env reporter campusB.id nowB input).pushSignal := by
  constructor
  · simp [createReport]
  · rfl

/-! ## C9: creation gating and the hourly rate limit -/

/-- Five requests by user 1 and then a first request by user 2, all from the
same IP within the hour. -/
def c9Trace : List CreateAttempt :=
  [⟨1, 7, 0, true⟩, ⟨1, 7, 1, true⟩, ⟨1, 7, 2, true⟩, ⟨1, 7, 3, true⟩,
   ⟨1, 7, 4, true⟩, ⟨2, 7, 5, true⟩]

/-- C9 counterexample: under the default limit 5, user 2's FIRST attempt of
the hour is rejected by the limiter (express-rate-limit keys on the client
IP, not on the user), although the claimed per-user rule would admit it. -/
theorem c9_counterexample :
    processCreateAttempts defaultEnv c9Trace
      = [CreateOutcome.created, CreateOutcome.created, CreateOutcome.created,
         CreateOutcome.created, CreateOutcome.created,
         CreateOutcome.rateLimited]
    ∧ specUserRateAllows 5 (c9Trace.take 5) ⟨2, 7, 5, true⟩ = true := by
  refine ⟨by decide, by decide⟩

/-- C9 (amended).  Creation requires a verified email (unverified requests
are rejected before the limiter) and is rate-limited per client IP with a
one-hour window: with the default limit 5, the 6th request from one IP within
the window is rejected no matter which users sent the requests; the limit
comes from the env setting `rateLimit.reportsPerHour` (100 in development),
not from the campus document. -/
theorem c9_amended_rate_limit (u1 u2 u3 u4 u5 u6 : UserId) (ip : Nat) :
    processCreateAttempts defaultEnv
      [⟨u1, ip, 0, true⟩, ⟨u2, ip, 1, true⟩, ⟨u3, ip, 2, true⟩,
       ⟨u4, ip, 3, true⟩, ⟨u5, ip, 4, true⟩, ⟨u6, ip, 5, true⟩]
      = [CreateOutcome.created, CreateOutcome.created, CreateOutcome.created,
         CreateOutcome.created, CreateOutcome.created,
         CreateOutcome.rateLimited]
    ∧ (∀ u q t, processCreateAttempts defaultEnv [⟨u, q, t, false⟩]
        = [CreateOutcome.emailNotVerified])
    ∧ reportLimiterMax defaultEnv = 5
    ∧ reportLimiterMax { defaultEnv with rateLimitReportsPerHour := 3 } = 3
    ∧ reportLimiterMax { defaultEnv with isDevelopment := true } = 100 := by
  refine ⟨?_, ?_, by decide, by decide, by decide⟩
  · simp [processCreateAttempts, limiterHit, reportLimiterMax, defaultEnv,
      limiterWindowMs]
  · intro u q t
    simp [processCreateAttempts]

end CampusSafety
